import Mathlib

/-!
A shallow embedding of the CloudSeedingViewer front-end logic
(`src/script.js`, together with the alternate revision kept as
`src/unnamed/part_000`), and proofs about its temporal-alignment and
playback behaviour.

Modelling conventions:
* JS `Date` values are `Int` (milliseconds since the epoch); the comparison
  `new Date(x) <= new Date(y)` on valid dates is `x ≤ y` on the parsed values.
* Array indices coming from the DOM (`parseInt` on the slider value) are `Int`;
  `arr[i]` is `undefined` off range, modelled with `Option`.
* A thrown JS exception is the `Option JsError` component of a step's result;
  the returned `AppState` is the state at the moment of the throw (mutations
  performed before the faulting expression are kept, exactly as in JS, since
  the only `try`/`catch` is in `loadFlight` and continues from that state).
-/

namespace CloudSeedingViewer

/-- A GeoJSON `Point` feature of `flight_data.geojson`, restricted to the
fields the animation code reads. -/
structure TrackPoint where
  /-- Parsed value of `properties.timestamp_iso`. -/
  timestamp_iso : Int
  /-- The first coordinate, `geometry.coordinates[0]` (longitude). -/
  lon : Int
  /-- The second coordinate, `geometry.coordinates[1]` (latitude). -/
  lat : Int
  /-- Value of `properties.seeding_type`; `none` when the property is absent. -/
  seeding_type : Option String
  deriving Repr, DecidableEq

/-- An entry of `radar_meta.json`'s `frames` array (`script.js` shape). -/
structure RadarFrame where
  /-- Parsed value of the frame's `time` field. -/
  time : Int
  /-- The frame's `file` field (image file name). -/
  file : String
  deriving Repr, DecidableEq

/-- The radar frame list is sorted ascending by timestamp (non-strictly:
duplicate timestamps are allowed). -/
def SortedByTime (frames : List RadarFrame) : Prop :=
  frames.Pairwise (fun a b => a.time ≤ b.time)

/-- The frame-selection loop body of `updateFrame` (`script.js` lines 132–138):
walk the frame list in order, remembering each frame whose time is `≤ t`
(`correctFrame = frame`), and stop at the first frame whose time exceeds `t`
(the `break`). -/
def resolveLoop (t : Int) (correct : RadarFrame) : List RadarFrame → RadarFrame
  | [] => correct
  | f :: fs => if f.time ≤ t then resolveLoop t f fs else correct

/-- Frame resolution of `updateFrame` (`script.js` lines 131–138):
`correctFrame` starts at `frames[0]` and the loop runs over the whole list.
On an empty list `frames[0]` is `undefined` in JS and the later
`correctFrame.file` access would throw, hence `none` here. -/
def resolveFrame (frames : List RadarFrame) (t : Int) : Option RadarFrame :=
  match frames with
  | [] => none
  | f0 :: rest => some (resolveLoop t f0 (f0 :: rest))

/-- The descending index loop of `updateFrame` in `src/unnamed/part_000`
(lines 125–132): with fuel `i + 1` the loop examines index `i`; it returns the
first index, counting down, whose timestamp is `≤ t` (the JS test is
`pointTime >= radarTime`), and `0` when none qualifies. -/
def backSearchAux (timestamps : List Int) (t : Int) : Nat → Nat
  | 0 => 0
  | i + 1 => if timestamps.getD i 0 ≤ t then i else backSearchAux timestamps t i

/-- Radar frame index resolution of `src/unnamed/part_000` (lines 125–132):
scan `radarMeta.timestamps` from the last index down to `0`. -/
def backSearch (timestamps : List Int) (t : Int) : Nat :=
  backSearchAux timestamps t timestamps.length

/-- The comparator of the sort call in `loadFlight` (`script.js` line 63),
`(a, b) => new Date(a.time) - new Date(b.time)`: ascending by time. -/
def frameLE (a b : RadarFrame) : Bool :=
  decide (a.time ≤ b.time)

/-- The sort performed on `radarMeta.frames` during load (`script.js` line 63).
`Array.prototype.sort` is required to be stable since ECMAScript 2019, so it
is modelled by a stable merge sort under the comparator's order. -/
def sortFrames (frames : List RadarFrame) : List RadarFrame :=
  frames.mergeSort frameLE

/-- A thrown JS exception value. -/
inductive JsError where
  | typeError (msg : String) : JsError
  | referenceError (msg : String) : JsError
  deriving Repr, DecidableEq

/-- The Leaflet circle marker held in `airplaneMarker`: its position
(`setLatLng`) and fill color (`setStyle`). -/
structure Marker where
  lat : Int
  lng : Int
  fillColor : String
  deriving Repr, DecidableEq

/-- The object assigned to the module-level `flightData` in `loadFlight`:
the `LineString` feature (kept opaque) and the `Point` features. -/
structure FlightData where
  path : Option String
  points : List TrackPoint
  deriving Repr, DecidableEq

/-- The parsed `radar_meta.json` assigned to `animationState.radarMeta`. -/
structure RadarMeta where
  frames : List RadarFrame
  bounds : String
  deriving Repr, DecidableEq

/-- The whole mutable state of `script.js`: the module-level variables, the
fields of `animationState`, and the DOM/map facts the code reads or writes.
`radarOverlay` is the URL held by the Leaflet image overlay object (`none`
while the variable is still `null`); `mapHasPath`/`mapHasMarker`/
`mapHasOverlay` record which layers are currently added to the map (layer
variables survive `map.removeLayer`, so they are tracked separately);
`nextTimerId`/`activeTimers` model `setInterval`/`clearInterval`:
each `setInterval` hands out a fresh id and registers it, `clearInterval`
deregisters the given id. -/
structure AppState where
  flightData : Option FlightData
  isPlaying : Bool
  timer : Option Nat
  currentIndex : Int
  radarMeta : Option RadarMeta
  currentFlightId : Option String
  currentRadarFile : Option String
  airplaneMarker : Option Marker
  radarOverlay : Option String
  mapHasPath : Bool
  mapHasMarker : Bool
  mapHasOverlay : Bool
  sliderValue : Int
  sliderDisabled : Bool
  timestampText : Option Int
  playBtnText : String
  playBtnPlayingClass : Bool
  controlsHidden : Bool
  nextTimerId : Nat
  activeTimers : List Nat
  deriving Repr, DecidableEq

/-- The state when `DOMContentLoaded` has run: all module variables `null`,
`animationState` at its initial literal, controls hidden and slider disabled
(the markup state before any flight is loaded). -/
def initState : AppState where
  flightData := none
  isPlaying := false
  timer := none
  currentIndex := 0
  radarMeta := none
  currentFlightId := none
  currentRadarFile := none
  airplaneMarker := none
  radarOverlay := none
  mapHasPath := false
  mapHasMarker := false
  mapHasOverlay := false
  sliderValue := 0
  sliderDisabled := true
  timestampText := none
  playBtnText := "Play"
  playBtnPlayingClass := false
  controlsHidden := true
  nextTimerId := 0
  activeTimers := []

/-- JS array access `flightData.points[pointIndex]` with an `Int` index
(`parseInt` can produce any integer): `undefined` off range. -/
def getPoint (points : List TrackPoint) (i : Int) : Option TrackPoint :=
  if 0 ≤ i then points[i.toNat]? else none

/-- The seeding-category to color mapping of `updateFrame`
(`script.js` lines 149–154). -/
def colorFor (seeding : Option String) : String :=
  if seeding = some "BIP" then "#ff00ff"
  else if seeding = some "Eject" then "#ffff00"
  else if seeding = some "Generator" then "#00ffff"
  else "#ff7800"

/-- The radar image URL template of `script.js` (a `null` flight id prints as
the string `null` in a JS template literal). -/
def radarUrl (flightId : Option String) (file : String) : String :=
  "processed_data/" ++ flightId.getD "null" ++ "/radar_frames/" ++ file

/-- Last part of `updateFrame` (`script.js` lines 146–160): move and recolor
the airplane marker, then write the slider value and the time label.
Faults when the `airplaneMarker` variable is still `null`. -/
def updateFrameTail (s : AppState) (point : TrackPoint) (pointIndex : Int) :
    AppState × Option JsError :=
  match s.airplaneMarker with
  | none => (s, some (.typeError "airplaneMarker is null"))
  | some _ =>
    ({ s with
        airplaneMarker := some { lat := point.lat, lng := point.lon,
                                 fillColor := colorFor point.seeding_type },
        sliderValue := pointIndex,
        timestampText := some point.timestamp_iso }, none)

/-- The function `updateFrame` of `script.js` (lines 125–161). The stored
index is overwritten first; `if (!point) return` exits silently off range;
then the radar frame effective at the point's timestamp is resolved, the
overlay URL is swapped only when the resolved frame differs from the
displayed one, and the marker/slider/label are updated. Each `none`/empty
case that the JS would fault on is returned as the corresponding exception,
with the state as of the faulting expression. -/
def updateFrame (s : AppState) (pointIndex : Int) : AppState × Option JsError :=
  let s1 : AppState := { s with currentIndex := pointIndex }
  match s1.flightData with
  | none => (s1, some (.typeError "flightData is null"))
  | some fd =>
    match getPoint fd.points pointIndex with
    | none => (s1, none)
    | some point =>
      match s1.radarMeta with
      | none => (s1, some (.typeError "radarMeta is null"))
      | some meta =>
        match resolveFrame meta.frames point.timestamp_iso with
        | none => (s1, some (.typeError "correctFrame is undefined"))
        | some correctFrame =>
          if s1.currentRadarFile = some correctFrame.file then
            updateFrameTail s1 point pointIndex
          else
            match s1.radarOverlay with
            | none => (s1, some (.typeError "radarOverlay is null"))
            | some _ =>
              updateFrameTail
                { s1 with
                    radarOverlay :=
                      some (radarUrl s1.currentFlightId correctFrame.file),
                    currentRadarFile := some correctFrame.file }
                point pointIndex

/-- The body of the `setInterval` callback installed by `playAnimation`
(`script.js` lines 108–114): advance by one, wrap to `0` at the end of the
track, and render. -/
def tickStep (s : AppState) : AppState × Option JsError :=
  match s.flightData with
  | none => (s, some (.typeError "flightData is null"))
  | some fd =>
    let nextIndex := s.currentIndex + 1
    let nextIndex := if (fd.points.length : Int) ≤ nextIndex then 0 else nextIndex
    updateFrame s nextIndex

/-- Model of `setInterval(...)`: allocate a fresh timer id and register it. -/
def setIntervalTick (s : AppState) : AppState × Nat :=
  ({ s with
      activeTimers := s.nextTimerId :: s.activeTimers,
      nextTimerId := s.nextTimerId + 1 }, s.nextTimerId)

/-- Model of `clearInterval(t)`: deregister the id (a `null` argument is a
no-op, as in JS). -/
def clearIntervalTimer (s : AppState) (t : Option Nat) : AppState :=
  match t with
  | none => s
  | some id => { s with activeTimers := s.activeTimers.filter (fun x => x ≠ id) }

/-- The function `playAnimation` of `script.js` (lines 102–115). -/
def playAnimation (s : AppState) : AppState :=
  if s.isPlaying then s
  else
    let s1 : AppState :=
      { s with isPlaying := true, playBtnText := "Pause", playBtnPlayingClass := true }
    let p := setIntervalTick s1
    { p.1 with timer := some p.2 }

/-- The function `pauseAnimation` of `script.js` (lines 117–123). -/
def pauseAnimation (s : AppState) : AppState :=
  if s.isPlaying then
    let s1 : AppState :=
      { s with isPlaying := false, playBtnText := "Play", playBtnPlayingClass := false }
    clearIntervalTimer s1 s1.timer
  else s

/-- The function `resetMap` of `script.js` (lines 163–173): pause, remove the
layers from the map (the layer variables themselves are not nulled), clear
the session reference and position, hide the controls, disable the slider. -/
def resetMap (s : AppState) : AppState :=
  let s1 := pauseAnimation s
  { s1 with
      mapHasPath := false,
      mapHasMarker := false,
      mapHasOverlay := false,
      flightData := none,
      currentIndex := 0,
      currentRadarFile := none,
      controlsHidden := true,
      sliderDisabled := true }

/-- The function `drawFlightPath` of `script.js` (lines 77–82): add the path
layer when a `LineString` feature exists. Reading `flightData.path` faults
when `flightData` is `null` (never the case on the `loadFlight` path). -/
def drawFlightPath (s : AppState) : AppState × Option JsError :=
  match s.flightData with
  | none => (s, some (.typeError "flightData is null"))
  | some fd =>
    (if fd.path.isSome then { s with mapHasPath := true } else s, none)

/-- The function `setupAnimation` of `script.js` (lines 84–99). With an empty
track, `flightData.points[0].geometry` faults. With a non-empty track, the
marker construction on line 86 reads `start_point`, an identifier that is
never declared (the local declared on line 85 is `startPoint`), so it faults
with a `ReferenceError`; everything after line 86 (first-frame overlay with
its `frames[0]` access, slider setup, `updateFrame(0)`) is unreachable. -/
def setupAnimation (s : AppState) : AppState × Option JsError :=
  match s.flightData with
  | none => (s, some (.typeError "flightData is null"))
  | some fd =>
    match fd.points with
    | [] => (s, some (.typeError "points[0] is undefined"))
    | _ :: _ => (s, some (.referenceError "start_point is not defined"))

/-- The function `loadFlight` of `script.js` (lines 45–74), applied to the
payloads of two successful fetches: `path`/`points` are the `LineString` and
`Point` features split out of `flight_data.geojson`, `meta` is the parsed
`radar_meta.json`. Any exception thrown inside the `try` block is caught
(`console.error` + `alert`) and returned as the second component; execution
then continues from the state at the throw, exactly as the handler does. -/
def loadFlight (s : AppState) (flightId : String) (path : Option String)
    (points : List TrackPoint) (meta : RadarMeta) : AppState × Option JsError :=
  let s1 := resetMap s
  let s2 : AppState := { s1 with currentFlightId := some flightId }
  let s3 : AppState := { s2 with flightData := some { path := path, points := points } }
  let s4 : AppState :=
    { s3 with radarMeta := some { meta with frames := sortFrames meta.frames } }
  match drawFlightPath s4 with
  | (s5, some e) => (s5, some e)
  | (s5, none) =>
    match setupAnimation s5 with
    | (s6, some e) => (s6, some e)
    | (s6, none) => ({ s6 with controlsHidden := false }, none)

/-- The `input` listener of the timeline slider (`script.js` lines 178–181):
pause, then render the scrubbed index. -/
def onSliderInput (s : AppState) (value : Int) : AppState × Option JsError :=
  updateFrame (pauseAnimation s) value

/-- The `click` listener of the play/pause button (`script.js` line 177). -/
def onPlayPauseClick (s : AppState) : AppState :=
  if s.isPlaying then pauseAnimation s else playAnimation s

/-- One user-visible event of the app: flight selection (with the payloads
its two fetches would deliver), deselection, the play/pause button, slider
scrubbing, and a pending timer tick firing. -/
inductive UserOp where
  | selectFlight (flightId : String) (path : Option String)
      (points : List TrackPoint) (meta : RadarMeta) : UserOp
  | deselectFlight : UserOp
  | playPauseClick : UserOp
  | sliderInput (value : Int) : UserOp
  | timerTick : UserOp

/-- The state transition of one event (state component only; the caught or
uncaught exception leaves the state exactly as the step built it). -/
def stepOp (s : AppState) : UserOp → AppState
  | .selectFlight fid path points meta => (loadFlight s fid path points meta).1
  | .deselectFlight => resetMap s
  | .playPauseClick => onPlayPauseClick s
  | .sliderInput v => (onSliderInput s v).1
  | .timerTick => (tickStep s).1

/-- The timer bookkeeping invariant: while playing, the registered interval is
exactly the one stored in `animationState.timer`; while not playing, no
interval is registered. -/
def TimerInv (s : AppState) : Prop :=
  (s.isPlaying = true → ∃ id, s.timer = some id ∧ s.activeTimers = [id]) ∧
  (s.isPlaying = false → s.activeTimers = [])

/-- The `Stopped` configuration of the controller: no session loaded, nothing
playing, position cleared, controls hidden, all layers off the map. -/
def IsStopped (s : AppState) : Prop :=
  s.isPlaying = false ∧ s.flightData = none ∧ s.currentIndex = 0 ∧
  s.currentRadarFile = none ∧ s.mapHasPath = false ∧ s.mapHasMarker = false ∧
  s.mapHasOverlay = false ∧ s.controlsHidden = true ∧ s.sliderDisabled = true

instance decSortedByTime (l : List RadarFrame) : Decidable (SortedByTime l) := by
  unfold SortedByTime
  infer_instance

/-- A sample radar frame at time 0. -/
def frA : RadarFrame := { time := 0, file := "a.png" }

/-- A sample radar frame at time 15. -/
def frB : RadarFrame := { time := 15, file := "b.png" }

/-- The two sample frames, sorted (Scenario A shape of the spec). -/
def exA : List RadarFrame := [frA, frB]

/-- A sample track point at time 0. -/
def ptA : TrackPoint := { timestamp_iso := 0, lon := 10, lat := 20, seeding_type := some "BIP" }

/-- A sample track point at time 100. -/
def ptB : TrackPoint := { timestamp_iso := 100, lon := 11, lat := 21, seeding_type := none }

/-- A sample two-point track. -/
def fdAB : FlightData := { path := none, points := [ptA, ptB] }

/-- Sample radar metadata over the two sample frames. -/
def metaAB : RadarMeta := { frames := exA, bounds := "bounds0" }

/-- A state with a session loaded and the marker and overlay objects present,
as the intended (non-faulting) setup path would produce. -/
def loadedState : AppState :=
  { initState with
      flightData := some fdAB,
      radarMeta := some metaAB,
      currentFlightId := some "flight1",
      currentRadarFile := some "a.png",
      airplaneMarker := some { lat := 20, lng := 10, fillColor := "#ff00ff" },
      radarOverlay := some "processed_data/flight1/radar_frames/a.png",
      controlsHidden := false,
      sliderDisabled := false }

/-- Sorted frames with a duplicated timestamp 1 followed by a frame at 2. -/
def cexC3 : List RadarFrame :=
  [{ time := 1, file := "a.png" }, { time := 1, file := "b.png" },
   { time := 2, file := "c.png" }]

/-- Sorted frames with a duplicated timestamp 1, which is the greatest
timestamp at or before query time 2 (the third frame is at 3). -/
def exC3 : List RadarFrame :=
  [{ time := 1, file := "a.png" }, { time := 1, file := "b.png" },
   { time := 3, file := "c.png" }]

/-- The loop of `resolveFrame` returns the last element of the longest prefix
of frames with time `≤ t`, falling back to the accumulator. -/
theorem resolveLoop_eq_takeWhile (t : Int) (l : List RadarFrame) (c : RadarFrame) :
    resolveLoop t c l = (l.takeWhile (fun f => decide (f.time ≤ t))).getLastD c := by
  induction l generalizing c with
  | nil => rfl
  | cons f fs ih =>
    by_cases h : f.time ≤ t
    · rw [List.takeWhile_cons_of_pos (by simpa using h), resolveLoop, if_pos h, ih f,
        List.getLastD_cons]
    · rw [List.takeWhile_cons_of_neg (by simpa using h), resolveLoop, if_neg h]
      rfl

/-- The loop result is the accumulator or a list element with time `≤ t`. -/
theorem resolveLoop_mem (t : Int) (l : List RadarFrame) (c : RadarFrame) :
    resolveLoop t c l = c ∨
      (resolveLoop t c l ∈ l ∧ (resolveLoop t c l).time ≤ t) := by
  induction l generalizing c with
  | nil => left; rfl
  | cons f fs ih =>
    by_cases h : f.time ≤ t
    · rw [resolveLoop, if_pos h]
      rcases ih f with h1 | ⟨h1, h2⟩
      · right
        constructor
        · rw [h1]; exact List.mem_cons_self f fs
        · rw [h1]; exact h
      · right
        exact ⟨List.mem_cons_of_mem f h1, h2⟩
    · rw [resolveLoop, if_neg h]
      left; rfl

/-- On a sorted list, the loop result's time dominates every element time
that is `≤ t`. -/
theorem resolveLoop_time_maximal (t : Int) :
    ∀ (l : List RadarFrame), SortedByTime l → ∀ (c f : RadarFrame),
      f ∈ l → f.time ≤ t → f.time ≤ (resolveLoop t c l).time := by
  intro l
  induction l with
  | nil => intro _ c f hf; exact absurd hf (List.not_mem_nil f)
  | cons g gs ih =>
    intro hs c f hf hft
    rw [SortedByTime, List.pairwise_cons] at hs
    by_cases hg : g.time ≤ t
    · simp only [resolveLoop, if_pos hg]
      rcases List.mem_cons.mp hf with rfl | hmem
      · rcases resolveLoop_mem t gs f with he | ⟨hm, _⟩
        · rw [he]
        · exact hs.1 _ hm
      · exact ih hs.2 g f hmem hft
    · simp only [resolveLoop, if_neg hg]
      rcases List.mem_cons.mp hf with rfl | hmem
      · exact absurd hft hg
      · exact absurd (le_trans (hs.1 f hmem) hft) hg

/-- On a sorted non-empty list the head's time is minimal. -/
theorem sorted_head_le (f0 : RadarFrame) (rest : List RadarFrame)
    (hs : SortedByTime (f0 :: rest)) :
    ∀ f ∈ f0 :: rest, f0.time ≤ f.time := by
  intro f hf
  rw [SortedByTime, List.pairwise_cons] at hs
  rcases List.mem_cons.mp hf with rfl | hmem
  · exact le_refl _
  · exact hs.1 f hmem

/-- On a sorted list the last element's time is maximal. -/
theorem sorted_le_getLast? :
    ∀ (l : List RadarFrame) (x : RadarFrame), l.getLast? = some x → SortedByTime l →
      ∀ f ∈ l, f.time ≤ x.time := by
  intro l
  induction l with
  | nil => intro x hx; exact absurd hx (by simp)
  | cons g gs ih =>
    intro x hx hs f hf
    rw [SortedByTime, List.pairwise_cons] at hs
    cases gs with
    | nil =>
      have hxg : x = g := by simpa using hx.symm
      subst hxg
      rcases List.mem_cons.mp hf with rfl | hmem
      · exact le_refl _
      · exact absurd hmem (List.not_mem_nil f)
    | cons g1 gs1 =>
      rw [List.getLast?_cons_cons] at hx
      rcases List.mem_cons.mp hf with rfl | hmem
      · exact hs.1 x (List.mem_of_getLast?_eq_some hx)
      · exact ih x hx hs.2 f hmem

/-- If the last element of a list satisfies `p`, it is also the last element
of the `p`-filtered list. -/
theorem getLast?_filter_of_getLast? (p : RadarFrame → Bool) :
    ∀ (l : List RadarFrame) (x : RadarFrame), l.getLast? = some x → p x = true →
      (l.filter p).getLast? = some x := by
  intro l
  induction l with
  | nil => intro x hx; exact absurd hx (by simp)
  | cons g gs ih =>
    intro x hx hp
    cases gs with
    | nil =>
      have hxg : x = g := by simpa using hx.symm
      subst hxg
      simp [List.filter_cons, hp]
    | cons g1 gs1 =>
      rw [List.getLast?_cons_cons] at hx
      have hIH := ih x hx hp
      have hfne : (g1 :: gs1).filter p ≠ [] := by
        intro hz
        rw [hz] at hIH
        exact Option.noConfusion hIH
      obtain ⟨y, ys, hfe⟩ := List.exists_cons_of_ne_nil hfne
      rw [List.filter_cons]
      by_cases hg : p g = true
      · rw [if_pos hg, hfe, List.getLast?_cons_cons, ← hfe, hIH]
      · rw [if_neg hg, hIH]

/-- On a list sorted by time, taking the prefix with time `≤ t` is the same as
filtering for time `≤ t` (the qualifying indices are downward closed). -/
theorem sorted_takeWhile_eq_filter (t : Int) :
    ∀ (l : List RadarFrame), SortedByTime l →
      l.takeWhile (fun f => decide (f.time ≤ t)) =
        l.filter (fun f => decide (f.time ≤ t)) := by
  intro l
  induction l with
  | nil => intro _; rfl
  | cons g gs ih =>
    intro hs
    rw [SortedByTime, List.pairwise_cons] at hs
    by_cases h : g.time ≤ t
    · rw [List.takeWhile_cons_of_pos (by simpa using h),
        List.filter_cons_of_pos (by simpa using h), ih hs.2]
    · rw [List.takeWhile_cons_of_neg (by simpa using h),
        List.filter_cons_of_neg (by simpa using h)]
      symm
      rw [List.filter_eq_nil_iff]
      intro f hf
      simp only [decide_eq_true_eq]
      intro hft
      exact h (le_trans (hs.1 f hf) hft)

/-- Full characterization of the descending scan of `backSearchAux`: either no
examined index has timestamp `≤ t` and the result is the default `0`, or the
result is the greatest examined index whose timestamp is `≤ t`. -/
theorem backSearchAux_spec (ts : List Int) (t : Int) :
    ∀ fuel : Nat,
      (backSearchAux ts t fuel = 0 ∧ ∀ j < fuel, ¬ ts.getD j 0 ≤ t) ∨
      (backSearchAux ts t fuel < fuel ∧ ts.getD (backSearchAux ts t fuel) 0 ≤ t ∧
        ∀ j < fuel, ts.getD j 0 ≤ t → j ≤ backSearchAux ts t fuel) := by
  intro fuel
  induction fuel with
  | zero =>
    left
    exact ⟨rfl, fun j hj => absurd hj (Nat.not_lt_zero j)⟩
  | succ i ih =>
    by_cases h : ts.getD i 0 ≤ t
    · right
      rw [backSearchAux, if_pos h]
      exact ⟨Nat.lt_succ_self i, h, fun j hj _ => Nat.lt_succ_iff.mp hj⟩
    · rw [backSearchAux, if_neg h]
      rcases ih with ⟨h0, hall⟩ | ⟨hlt, hle, hmax⟩
      · left
        refine ⟨h0, fun j hj => ?_⟩
        rcases Nat.lt_succ_iff_lt_or_eq.mp hj with hj2 | rfl
        · exact hall j hj2
        · exact h
      · right
        refine ⟨Nat.lt_succ_of_lt hlt, hle, fun j hj hjt => ?_⟩
        rcases Nat.lt_succ_iff_lt_or_eq.mp hj with hj2 | rfl
        · exact hmax j hj2 hjt
        · exact absurd hjt h

theorem frameLE_trans : ∀ (a b c : RadarFrame), frameLE a b → frameLE b c → frameLE a c := by
  intro a b c hab hbc
  simp only [frameLE, decide_eq_true_eq] at hab hbc ⊢
  omega

theorem frameLE_total : ∀ (a b : RadarFrame), frameLE a b || frameLE b a := by
  intro a b
  simp only [frameLE, Bool.or_eq_true, decide_eq_true_eq]
  omega

theorem sortFrames_sorted (frames : List RadarFrame) : SortedByTime (sortFrames frames) := by
  have h := List.sorted_mergeSort frameLE_trans frameLE_total frames
  exact h.imp (fun hab => by simpa [frameLE] using hab)

theorem sortFrames_perm (frames : List RadarFrame) : List.Perm (sortFrames frames) frames :=
  List.mergeSort_perm frames frameLE

/-- Stability of the load-time sort: for every timestamp, the subsequence of
frames carrying that timestamp is unchanged by sorting. -/
theorem sortFrames_filter_time (frames : List RadarFrame) (ts : Int) :
    (sortFrames frames).filter (fun f => decide (f.time = ts)) =
      frames.filter (fun f => decide (f.time = ts)) := by
  have hpair : (frames.filter (fun f => decide (f.time = ts))).Pairwise
      (fun a b => frameLE a b = true) := by
    apply List.pairwise_of_forall_mem_list
    intro a ha b hb
    have ha2 := (List.mem_filter.mp ha).2
    have hb2 := (List.mem_filter.mp hb).2
    simp only [decide_eq_true_eq] at ha2 hb2
    simp [frameLE, ha2, hb2]
  have hsub : List.Sublist (frames.filter (fun f => decide (f.time = ts))) (sortFrames frames) :=
    List.sublist_mergeSort frameLE_trans frameLE_total hpair (List.filter_sublist frames)
  have hsub2 := hsub.filter (fun f => decide (f.time = ts))
  rw [List.filter_filter] at hsub2
  have hself : frames.filter (fun a => decide (a.time = ts) && decide (a.time = ts)) =
      frames.filter (fun f => decide (f.time = ts)) := by
    apply List.filter_congr
    intro a _
    rw [Bool.and_self]
  rw [hself] at hsub2
  have hperm : List.Perm ((sortFrames frames).filter (fun f => decide (f.time = ts)))
      (frames.filter (fun f => decide (f.time = ts))) :=
    (sortFrames_perm frames).filter _
  exact (hsub2.eq_of_length hperm.length_eq.symm).symm

theorem setupAnimation_fst (s : AppState) : (setupAnimation s).1 = s := by
  unfold setupAnimation
  repeat' split
  all_goals rfl

theorem drawFlightPath_fst_fields (s : AppState) :
    (drawFlightPath s).1.isPlaying = s.isPlaying ∧
    (drawFlightPath s).1.timer = s.timer ∧
    (drawFlightPath s).1.activeTimers = s.activeTimers := by
  unfold drawFlightPath
  repeat' split
  all_goals exact ⟨rfl, rfl, rfl⟩

theorem clearIntervalTimer_shape (s : AppState) (t : Option Nat) :
    ∃ rem, clearIntervalTimer s t = { s with activeTimers := rem } := by
  cases t with
  | none => exact ⟨s.activeTimers, rfl⟩
  | some id => exact ⟨s.activeTimers.filter (fun x => x ≠ id), rfl⟩

theorem pauseAnimation_shape (s : AppState) :
    ∃ a b c, pauseAnimation s =
      { s with isPlaying := false, playBtnText := a, playBtnPlayingClass := b,
               activeTimers := c } := by
  unfold pauseAnimation
  by_cases h : s.isPlaying
  · rw [if_pos h]
    obtain ⟨rem, hcs⟩ := clearIntervalTimer_shape
      { s with isPlaying := false, playBtnText := "Play", playBtnPlayingClass := false }
      s.timer
    exact ⟨"Play", false, rem, hcs⟩
  · rw [if_neg h]
    have h2 : s.isPlaying = false := by simpa using h
    refine ⟨s.playBtnText, s.playBtnPlayingClass, s.activeTimers, ?_⟩
    rw [← h2]

theorem pauseAnimation_isPlaying (s : AppState) :
    (pauseAnimation s).isPlaying = false := by
  obtain ⟨a, b, c, h⟩ := pauseAnimation_shape s
  rw [h]

theorem updateFrame_fixed_fields (s : AppState) (i : Int) :
    (updateFrame s i).1.isPlaying = s.isPlaying ∧
    (updateFrame s i).1.timer = s.timer ∧
    (updateFrame s i).1.activeTimers = s.activeTimers ∧
    (updateFrame s i).1.nextTimerId = s.nextTimerId ∧
    (updateFrame s i).1.flightData = s.flightData ∧
    (updateFrame s i).1.radarMeta = s.radarMeta ∧
    (updateFrame s i).1.currentIndex = i := by
  unfold updateFrame updateFrameTail
  dsimp only
  repeat' split
  all_goals exact ⟨rfl, rfl, rfl, rfl, rfl, rfl, rfl⟩

theorem timerInv_init : TimerInv initState :=
  ⟨fun h => absurd h (by decide), fun _ => rfl⟩

theorem timerInv_of_fields_eq (s s2 : AppState) (h : TimerInv s)
    (h1 : s2.isPlaying = s.isPlaying) (h2 : s2.timer = s.timer)
    (h3 : s2.activeTimers = s.activeTimers) : TimerInv s2 := by
  constructor
  · intro hp
    obtain ⟨id, hid, hat⟩ := h.1 (h1.symm.trans hp)
    exact ⟨id, h2.trans hid, h3.trans hat⟩
  · intro hp
    exact h3.trans (h.2 (h1.symm.trans hp))

theorem clearIntervalTimer_inv (s : AppState) (hp2 : s.isPlaying = false)
    (id : Nat) (ht : s.timer = some id) (hat : s.activeTimers = [id]) :
    TimerInv (clearIntervalTimer s s.timer) := by
  rw [ht]
  constructor
  · intro hc
    have hc2 : s.isPlaying = true := hc
    rw [hp2] at hc2
    exact absurd hc2 (by decide)
  · intro _
    show s.activeTimers.filter (fun x => x ≠ id) = []
    rw [hat]
    simp

theorem timerInv_pause (s : AppState) (h : TimerInv s) : TimerInv (pauseAnimation s) := by
  unfold pauseAnimation
  by_cases hp : s.isPlaying
  · rw [if_pos hp]
    obtain ⟨id, hid, hat⟩ := h.1 hp
    exact clearIntervalTimer_inv _ rfl id hid hat
  · rw [if_neg hp]
    exact h

theorem pause_activeTimers_nil (s : AppState) (h : TimerInv s) :
    (pauseAnimation s).activeTimers = [] :=
  (timerInv_pause s h).2 (pauseAnimation_isPlaying s)

theorem timerInv_play (s : AppState) (h : TimerInv s) : TimerInv (playAnimation s) := by
  unfold playAnimation
  by_cases hp : s.isPlaying
  · rw [if_pos hp]
    exact h
  · rw [if_neg hp]
    have hb : s.isPlaying = false := by simpa using hp
    have hat := h.2 hb
    constructor
    · intro _
      refine ⟨s.nextTimerId, rfl, ?_⟩
      show s.nextTimerId :: s.activeTimers = [s.nextTimerId]
      rw [hat]
    · intro hc
      have hc2 : (true : Bool) = false := hc
      exact absurd hc2 (by decide)

theorem resetMap_isPlaying (s : AppState) : (resetMap s).isPlaying = false :=
  pauseAnimation_isPlaying s

theorem timerInv_reset (s : AppState) (h : TimerInv s) : TimerInv (resetMap s) := by
  constructor
  · intro hc
    rw [show (resetMap s).isPlaying = (pauseAnimation s).isPlaying from rfl,
      pauseAnimation_isPlaying s] at hc
    exact absurd hc (by decide)
  · intro _
    show (pauseAnimation s).activeTimers = []
    exact pause_activeTimers_nil s h

theorem loadTry_fields (s4 : AppState) :
    (match drawFlightPath s4 with
      | (s5, some e) => (s5, some e)
      | (s5, none) =>
        match setupAnimation s5 with
        | (s6, some e) => (s6, some e)
        | (s6, none) =>
          (({ s6 with controlsHidden := false } : AppState), none)).1.isPlaying
        = s4.isPlaying ∧
    (match drawFlightPath s4 with
      | (s5, some e) => (s5, some e)
      | (s5, none) =>
        match setupAnimation s5 with
        | (s6, some e) => (s6, some e)
        | (s6, none) =>
          (({ s6 with controlsHidden := false } : AppState), none)).1.timer
        = s4.timer ∧
    (match drawFlightPath s4 with
      | (s5, some e) => (s5, some e)
      | (s5, none) =>
        match setupAnimation s5 with
        | (s6, some e) => (s6, some e)
        | (s6, none) =>
          (({ s6 with controlsHidden := false } : AppState), none)).1.activeTimers
        = s4.activeTimers := by
  obtain ⟨d1, d2, d3⟩ := drawFlightPath_fst_fields s4
  cases hd : drawFlightPath s4 with
  | mk s5 e5 =>
    rw [hd] at d1 d2 d3
    cases e5 with
    | some e => exact ⟨d1, d2, d3⟩
    | none =>
      have hsf : (setupAnimation s5).1 = s5 := setupAnimation_fst s5
      cases hs2 : setupAnimation s5 with
      | mk s6 e6 =>
        rw [hs2] at hsf
        dsimp only at hsf
        subst hsf
        cases e6 with
        | some e =>
          dsimp only
          rw [hs2]
          exact ⟨d1, d2, d3⟩
        | none =>
          dsimp only
          rw [hs2]
          exact ⟨d1, d2, d3⟩

theorem loadFlight_timer_fields (s : AppState) (fid : String) (path : Option String)
    (points : List TrackPoint) (meta : RadarMeta) :
    (loadFlight s fid path points meta).1.isPlaying = (resetMap s).isPlaying ∧
    (loadFlight s fid path points meta).1.timer = (resetMap s).timer ∧
    (loadFlight s fid path points meta).1.activeTimers = (resetMap s).activeTimers :=
  loadTry_fields
    { resetMap s with
        currentFlightId := some fid,
        flightData := some { path := path, points := points },
        radarMeta := some { meta with frames := sortFrames meta.frames } }

theorem tickStep_timer_fields (s : AppState) :
    (tickStep s).1.isPlaying = s.isPlaying ∧
    (tickStep s).1.timer = s.timer ∧
    (tickStep s).1.activeTimers = s.activeTimers := by
  unfold tickStep
  dsimp only
  split
  · exact ⟨rfl, rfl, rfl⟩
  · obtain ⟨h1, h2, h3, _, _, _, _⟩ := updateFrame_fixed_fields s _
    exact ⟨h1, h2, h3⟩

theorem timerInv_step (s : AppState) (op : UserOp) (h : TimerInv s) :
    TimerInv (stepOp s op) := by
  cases op with
  | selectFlight fid path points meta =>
    obtain ⟨h1, h2, h3⟩ := loadFlight_timer_fields s fid path points meta
    exact timerInv_of_fields_eq (resetMap s) _ (timerInv_reset s h) h1 h2 h3
  | deselectFlight =>
    exact timerInv_reset s h
  | playPauseClick =>
    show TimerInv (onPlayPauseClick s)
    unfold onPlayPauseClick
    by_cases hp : s.isPlaying
    · rw [if_pos hp]
      exact timerInv_pause s h
    · rw [if_neg hp]
      exact timerInv_play s h
  | sliderInput v =>
    obtain ⟨h1, h2, h3, _, _, _, _⟩ := updateFrame_fixed_fields (pauseAnimation s) v
    exact timerInv_of_fields_eq (pauseAnimation s) _ (timerInv_pause s h) h1 h2 h3
  | timerTick =>
    obtain ⟨h1, h2, h3⟩ := tickStep_timer_fields s
    exact timerInv_of_fields_eq s _ h h1 h2 h3

theorem timerInv_foldl (ops : List UserOp) :
    ∀ s : AppState, TimerInv s → TimerInv (ops.foldl stepOp s) := by
  induction ops with
  | nil =>
    intro s h
    exact h
  | cons op rest ih =>
    intro s h
    exact ih (stepOp s op) (timerInv_step s op h)

theorem map_time_getD (frames : List RadarFrame) (k : Nat) (hk : k < frames.length) :
    (frames.map RadarFrame.time).getD k 0 = (frames.get ⟨k, hk⟩).time := by
  rw [List.getD_eq_getElem?_getD, List.getElem?_map, List.getElem?_eq_getElem hk]
  rfl

theorem sorted_get_le (frames : List RadarFrame) (hs : SortedByTime frames)
    (j k : Nat) (hj : j < frames.length) (hk : k < frames.length) (hjk : j ≤ k) :
    (frames.get ⟨j, hj⟩).time ≤ (frames.get ⟨k, hk⟩).time := by
  rcases Nat.lt_or_eq_of_le hjk with h | h
  · exact List.pairwise_iff_get.mp hs ⟨j, hj⟩ ⟨k, hk⟩ h
  · subst h
    exact le_refl _

/-- C1: for every non-empty radar frame sequence sorted ascending by timestamp
and every query timestamp, the frame resolution step of `updateFrame` selects
a frame of the sequence whose timestamp is the greatest frame timestamp `≤ t`
when one exists, and the frame at index 0 (the head) when `t` precedes every
frame's timestamp; the descending index scan of the `part_000` revision has
the same behaviour on the corresponding `timestamps` array. -/
theorem resolver_selects_greatest_le (frames : List RadarFrame) (t : Int)
    (hs : SortedByTime frames) (hne : frames ≠ []) :
    (∃ r, resolveFrame frames t = some r ∧ r ∈ frames ∧
      ((∀ f ∈ frames, t < f.time) → frames.head? = some r) ∧
      ((∃ f ∈ frames, f.time ≤ t) →
        r.time ≤ t ∧ ∀ f ∈ frames, f.time ≤ t → f.time ≤ r.time)) ∧
    (backSearch (frames.map RadarFrame.time) t < frames.length ∧
      ((∀ f ∈ frames, t < f.time) → backSearch (frames.map RadarFrame.time) t = 0) ∧
      ((∃ f ∈ frames, f.time ≤ t) →
        (frames.map RadarFrame.time).getD (backSearch (frames.map RadarFrame.time) t) 0 ≤ t ∧
        ∀ f ∈ frames, f.time ≤ t →
          f.time ≤ (frames.map RadarFrame.time).getD
            (backSearch (frames.map RadarFrame.time) t) 0)) := by
  obtain ⟨f0, rest, rfl⟩ := List.exists_cons_of_ne_nil hne
  constructor
  · refine ⟨resolveLoop t f0 (f0 :: rest), rfl, ?_, ?_, ?_⟩
    · rcases resolveLoop_mem t (f0 :: rest) f0 with he | ⟨hm, _⟩
      · rw [he]
        exact List.mem_cons_self f0 rest
      · exact hm
    · intro hall
      have h0 : ¬ f0.time ≤ t := not_le.mpr (hall f0 (List.mem_cons_self f0 rest))
      rw [resolveLoop, if_neg h0]
      rfl
    · rintro ⟨g, hg, hgt⟩
      have hf0t : f0.time ≤ t := le_trans (sorted_head_le f0 rest hs g hg) hgt
      refine ⟨?_, fun f hf hft => resolveLoop_time_maximal t (f0 :: rest) hs f0 f hf hft⟩
      rcases resolveLoop_mem t (f0 :: rest) f0 with he | ⟨_, h2⟩
      · rw [he]
        exact hf0t
      · exact h2
  · have hlen : ((f0 :: rest).map RadarFrame.time).length = (f0 :: rest).length :=
      List.length_map _ _
    rcases backSearchAux_spec ((f0 :: rest).map RadarFrame.time) t
        ((f0 :: rest).map RadarFrame.time).length with ⟨h0, hall⟩ | ⟨hlt, hle, hmax⟩
    · refine ⟨?_, ?_, ?_⟩
      · rw [backSearch, h0]
        simp
      · intro _
        rw [backSearch, h0]
      · rintro ⟨g, hg, hgt⟩
        obtain ⟨⟨j, hj⟩, hgj⟩ := List.mem_iff_get.mp hg
        exfalso
        apply hall j (by rw [hlen]; exact hj)
        rw [map_time_getD _ j hj, hgj]
        exact hgt
    · have hk : backSearchAux ((f0 :: rest).map RadarFrame.time) t
          ((f0 :: rest).map RadarFrame.time).length < (f0 :: rest).length := by
        rw [← hlen]
        exact hlt
      refine ⟨hk, ?_, ?_⟩
      · intro hallf
        exfalso
        have hmem := List.get_mem (f0 :: rest) _ hk
        apply absurd hle
        rw [map_time_getD _ _ hk]
        exact not_le.mpr (hallf _ hmem)
      · rintro ⟨g, hg, hgt⟩
        refine ⟨hle, ?_⟩
        intro f hf hft
        obtain ⟨⟨j, hj⟩, hfj⟩ := List.mem_iff_get.mp hf
        have hjk : j ≤ backSearchAux ((f0 :: rest).map RadarFrame.time) t
            ((f0 :: rest).map RadarFrame.time).length := by
          apply hmax j (by rw [hlen]; exact hj)
          rw [map_time_getD _ j hj, hfj]
          exact hft
        rw [backSearch, map_time_getD _ _ hk, ← hfj]
        exact sorted_get_le (f0 :: rest) hs j _ hj hk hjk

/-- C2: the frame resolver is monotone: on a sorted non-empty frame sequence,
the timestamp of the frame resolved for `t1` is at most the timestamp of the
frame resolved for `t2` whenever `t1 ≤ t2`. -/
theorem resolver_monotone (frames : List RadarFrame) (t1 t2 : Int)
    (hs : SortedByTime frames) (hne : frames ≠ []) (h12 : t1 ≤ t2) :
    ∃ r1 r2, resolveFrame frames t1 = some r1 ∧ resolveFrame frames t2 = some r2 ∧
      r1.time ≤ r2.time := by
  obtain ⟨f0, rest, rfl⟩ := List.exists_cons_of_ne_nil hne
  refine ⟨resolveLoop t1 f0 (f0 :: rest), resolveLoop t2 f0 (f0 :: rest), rfl, rfl, ?_⟩
  have hmem2 : resolveLoop t2 f0 (f0 :: rest) ∈ f0 :: rest := by
    rcases resolveLoop_mem t2 (f0 :: rest) f0 with he | ⟨hm, _⟩
    · rw [he]
      exact List.mem_cons_self f0 rest
    · exact hm
  rcases resolveLoop_mem t1 (f0 :: rest) f0 with he1 | ⟨hm1, hle1⟩
  · rw [he1]
    exact sorted_head_le f0 rest hs _ hmem2
  · exact resolveLoop_time_maximal t2 (f0 :: rest) hs f0 _ hm1 (le_trans hle1 h12)

/-- C3 (amended): when a sorted frame sequence has several frames sharing a
timestamp `ts`, the query time `t` is at least `ts`, and `ts` is moreover the
greatest frame timestamp `≤ t`, the resolver returns the frame with timestamp
`ts` appearing last (greatest index), i.e. the last element of the
equal-timestamp group. -/
theorem resolver_tie_break_last (frames : List RadarFrame) (t ts : Int)
    (hs : SortedByTime frames)
    (hdup : 2 ≤ (frames.filter (fun f => decide (f.time = ts))).length)
    (hts : ts ≤ t)
    (hmax : ∀ f ∈ frames, f.time ≤ t → f.time ≤ ts) :
    resolveFrame frames t = (frames.filter (fun f => decide (f.time = ts))).getLast? := by
  have hfilne : frames.filter (fun f => decide (f.time = ts)) ≠ [] := by
    intro hz
    rw [hz] at hdup
    exact absurd hdup (by decide)
  obtain ⟨g, hgmem⟩ := List.exists_mem_of_ne_nil _ hfilne
  obtain ⟨hgf, hgts⟩ := List.mem_filter.mp hgmem
  have hgts2 : g.time = ts := by simpa using hgts
  have hne : frames ≠ [] := List.ne_nil_of_mem hgf
  obtain ⟨f0, rest, rfl⟩ := List.exists_cons_of_ne_nil hne
  have hPmem : g ∈ (f0 :: rest).filter (fun f => decide (f.time ≤ t)) :=
    List.mem_filter.mpr ⟨hgf, by simp [hgts2, hts]⟩
  have hPne : (f0 :: rest).filter (fun f => decide (f.time ≤ t)) ≠ [] :=
    List.ne_nil_of_mem hPmem
  obtain ⟨x, hx⟩ := Option.isSome_iff_exists.mp (List.getLast?_isSome.mpr hPne)
  have hPsorted : SortedByTime ((f0 :: rest).filter (fun f => decide (f.time ≤ t))) :=
    List.Pairwise.sublist (List.filter_sublist _) hs
  have hxm := List.mem_of_getLast?_eq_some hx
  obtain ⟨hxf, hxp⟩ := List.mem_filter.mp hxm
  have hxt : x.time ≤ t := by simpa using hxp
  have hxts : x.time = ts :=
    le_antisymm (hmax x hxf hxt) (hgts2 ▸ sorted_le_getLast? _ x hx hPsorted g hPmem)
  have hlast := getLast?_filter_of_getLast? (fun f => decide (f.time = ts)) _ x hx
    (by simp [hxts])
  have hfe : ((f0 :: rest).filter (fun f => decide (f.time ≤ t))).filter
      (fun f => decide (f.time = ts)) =
      (f0 :: rest).filter (fun f => decide (f.time = ts)) := by
    rw [List.filter_filter]
    apply List.filter_congr
    intro a _
    by_cases ha : a.time = ts
    · simp [ha, hts]
    · simp [ha]
  rw [hfe] at hlast
  show some (resolveLoop t f0 (f0 :: rest)) = _
  rw [resolveLoop_eq_takeWhile, sorted_takeWhile_eq_filter t _ hs,
    List.getLastD_eq_getLast?, hx, hlast]
  rfl

theorem setupAnimation_snd_isSome (s : AppState) : (setupAnimation s).2.isSome = true := by
  unfold setupAnimation
  repeat' split
  all_goals rfl

/-- The `updateFrame` step never throws on a well-formed loaded session:
track data present, radar metadata present with at least one frame, and the
marker and overlay objects created. -/
theorem updateFrame_no_error (s : AppState) (i : Int) (fd : FlightData) (meta : RadarMeta)
    (hfd : s.flightData = some fd) (hmeta : s.radarMeta = some meta)
    (hfr : meta.frames ≠ []) (hm : s.airplaneMarker ≠ none)
    (hov : s.radarOverlay ≠ none) :
    (updateFrame s i).2 = none := by
  obtain ⟨f0, rest, hfr2⟩ := List.exists_cons_of_ne_nil hfr
  rcases hm2 : s.airplaneMarker with _ | mk
  · exact absurd hm2 hm
  rcases hov2 : s.radarOverlay with _ | u
  · exact absurd hov2 hov
  unfold updateFrame updateFrameTail
  dsimp only
  rw [hfd]
  dsimp only
  cases hgp : getPoint fd.points i with
  | none => rfl
  | some point =>
    dsimp only
    rw [hmeta]
    dsimp only
    rw [hfr2]
    dsimp only [resolveFrame]
    split
    · rw [hm2]
    · rw [hov2]
      dsimp only
      rw [hm2]

theorem loadTry_proj {α : Type} (s4 : AppState) (g : AppState → α)
    (hdraw : ∀ s : AppState, g (drawFlightPath s).1 = g s)
    (hhide : ∀ s : AppState, g { s with controlsHidden := false } = g s) :
    g (match drawFlightPath s4 with
      | (s5, some e) => (s5, some e)
      | (s5, none) =>
        match setupAnimation s5 with
        | (s6, some e) => (s6, some e)
        | (s6, none) =>
          (({ s6 with controlsHidden := false } : AppState), none)).1 = g s4 := by
  have hd4 := hdraw s4
  cases hd : drawFlightPath s4 with
  | mk s5 e5 =>
    rw [hd] at hd4
    cases e5 with
    | some e => exact hd4
    | none =>
      have hsf : (setupAnimation s5).1 = s5 := setupAnimation_fst s5
      cases hs2 : setupAnimation s5 with
      | mk s6 e6 =>
        rw [hs2] at hsf
        dsimp only at hsf
        subst hsf
        cases e6 with
        | some e =>
          dsimp only
          rw [hs2]
          exact hd4
        | none =>
          dsimp only
          rw [hs2]
          exact (hhide _).trans hd4

theorem loadTry_snd_isSome (s4 : AppState) :
    (match drawFlightPath s4 with
      | (s5, some e) => (s5, some e)
      | (s5, none) =>
        match setupAnimation s5 with
        | (s6, some e) => (s6, some e)
        | (s6, none) =>
          (({ s6 with controlsHidden := false } : AppState), none)).2.isSome = true := by
  cases hd : drawFlightPath s4 with
  | mk s5 e5 =>
    cases e5 with
    | some e => rfl
    | none =>
      have hss := setupAnimation_snd_isSome s5
      cases hs2 : setupAnimation s5 with
      | mk s6 e6 =>
        rw [hs2] at hss
        cases e6 with
        | some e =>
          dsimp only
          rw [hs2]
          rfl
        | none => exact Bool.noConfusion (show (false : Bool) = true from hss)

theorem pause_of_not_playing (s : AppState) (h : s.isPlaying = false) :
    pauseAnimation s = s := by
  unfold pauseAnimation
  rw [if_neg]
  rw [h]
  decide

theorem pause_pause (s : AppState) :
    pauseAnimation (pauseAnimation s) = pauseAnimation s :=
  pause_of_not_playing (pauseAnimation s) (pauseAnimation_isPlaying s)

theorem pause_currentIndex (s : AppState) :
    (pauseAnimation s).currentIndex = s.currentIndex := by
  obtain ⟨a, b, c, hp⟩ := pauseAnimation_shape s
  rw [hp]

theorem reset_noop (s : AppState) (h : IsStopped s) : resetMap s = s := by
  obtain ⟨h1, h2, h3, h4, h5, h6, h7, h8, h9⟩ := h
  have hp := pause_of_not_playing s h1
  unfold resetMap
  dsimp only
  rw [hp]
  obtain ⟨fD, iP, tm, cI, rM, cFI, cRF, aM, rO, mHP, mHM, mHO, sV, sD, tT, pBT, pBPC, cH,
    nTI, aT⟩ := s
  dsimp only at h2 h3 h4 h5 h6 h7 h8 h9
  subst h2 h3 h4 h5 h6 h7 h8 h9
  rfl

theorem loadTry_controlsHidden (s4 : AppState) :
    (match drawFlightPath s4 with
      | (s5, some e) => (s5, some e)
      | (s5, none) =>
        match setupAnimation s5 with
        | (s6, some e) => (s6, some e)
        | (s6, none) =>
          (({ s6 with controlsHidden := false } : AppState), none)).1.controlsHidden
      = s4.controlsHidden := by
  have hd4 : (drawFlightPath s4).1.controlsHidden = s4.controlsHidden := by
    unfold drawFlightPath
    repeat' split
    all_goals rfl
  cases hd : drawFlightPath s4 with
  | mk s5 e5 =>
    rw [hd] at hd4
    cases e5 with
    | some e => exact hd4
    | none =>
      have hss := setupAnimation_snd_isSome s5
      have hsf : (setupAnimation s5).1 = s5 := setupAnimation_fst s5
      cases hs2 : setupAnimation s5 with
      | mk s6 e6 =>
        rw [hs2] at hss hsf
        dsimp only at hsf
        subst hsf
        cases e6 with
        | some e =>
          dsimp only
          rw [hs2]
          exact hd4
        | none => exact Bool.noConfusion (show (false : Bool) = true from hss)

/-- C4 (amended): on a well-formed loaded session, a slider seek first pauses
playback and then stores the target index exactly as given — without clamping
— and raises no error for any target, in range or not (an out-of-range target
simply leaves the stored position at the out-of-range value). -/
theorem seek_pauses_sets_position (s : AppState) (fd : FlightData) (meta : RadarMeta)
    (v : Int) (hfd : s.flightData = some fd) (hmeta : s.radarMeta = some meta)
    (hfr : meta.frames ≠ []) (hm : s.airplaneMarker ≠ none)
    (hov : s.radarOverlay ≠ none) :
    (onSliderInput s v).1.isPlaying = false ∧
    (onSliderInput s v).1.currentIndex = v ∧
    (onSliderInput s v).2 = none := by
  obtain ⟨a, b, c, hp⟩ := pauseAnimation_shape s
  refine ⟨?_, ?_, ?_⟩
  · show (updateFrame (pauseAnimation s) v).1.isPlaying = false
    rw [(updateFrame_fixed_fields _ v).1, pauseAnimation_isPlaying]
  · exact (updateFrame_fixed_fields _ v).2.2.2.2.2.2
  · show (updateFrame (pauseAnimation s) v).2 = none
    apply updateFrame_no_error _ v fd meta
    · rw [hp]
      exact hfd
    · rw [hp]
      exact hmeta
    · exact hfr
    · rw [hp]
      exact hm
    · rw [hp]
      exact hov

/-- C5 (amended): a session load whose fetched track or radar series is empty
signals an error (the load aborts inside the `try` block) and never reaches
the playing state: afterwards no timer is registered, the position is cleared
to 0, the controls stay hidden and the slider disabled — but the partially
assigned session data (flight data and radar metadata) is retained rather
than being cleared back to the Stopped configuration. -/
theorem load_empty_series_fails (s : AppState) (fid : String) (path : Option String)
    (points : List TrackPoint) (meta : RadarMeta)
    (_hempty : points = [] ∨ meta.frames = []) (hInv : TimerInv s) :
    (loadFlight s fid path points meta).2.isSome = true ∧
    (loadFlight s fid path points meta).1.isPlaying = false ∧
    (loadFlight s fid path points meta).1.activeTimers = [] ∧
    (loadFlight s fid path points meta).1.currentIndex = 0 ∧
    (loadFlight s fid path points meta).1.controlsHidden = true ∧
    (loadFlight s fid path points meta).1.sliderDisabled = true ∧
    (loadFlight s fid path points meta).1.flightData =
      some { path := path, points := points } ∧
    (loadFlight s fid path points meta).1.radarMeta =
      some { meta with frames := sortFrames meta.frames } := by
  obtain ⟨ht1, ht2, ht3⟩ := loadFlight_timer_fields s fid path points meta
  refine ⟨?_, ?_, ?_, ?_, ?_, ?_, ?_, ?_⟩
  · exact loadTry_snd_isSome
      { resetMap s with
          currentFlightId := some fid,
          flightData := some { path := path, points := points },
          radarMeta := some { meta with frames := sortFrames meta.frames } }
  · rw [ht1]
    exact resetMap_isPlaying s
  · rw [ht3]
    show (pauseAnimation s).activeTimers = []
    exact pause_activeTimers_nil s hInv
  · exact loadTry_proj
      { resetMap s with
          currentFlightId := some fid,
          flightData := some { path := path, points := points },
          radarMeta := some { meta with frames := sortFrames meta.frames } }
      (fun st => st.currentIndex)
      (fun st => by unfold drawFlightPath; dsimp only; repeat' split; all_goals first | rfl | (split_ifs <;> rfl))
      (fun st => rfl)
  · -- controlsHidden: the success branch is never reached, so it is preserved
    exact loadTry_controlsHidden
      { resetMap s with
          currentFlightId := some fid,
          flightData := some { path := path, points := points },
          radarMeta := some { meta with frames := sortFrames meta.frames } }
  · exact loadTry_proj
      { resetMap s with
          currentFlightId := some fid,
          flightData := some { path := path, points := points },
          radarMeta := some { meta with frames := sortFrames meta.frames } }
      (fun st => st.sliderDisabled)
      (fun st => by unfold drawFlightPath; dsimp only; repeat' split; all_goals first | rfl | (split_ifs <;> rfl))
      (fun st => rfl)
  · exact loadTry_proj
      { resetMap s with
          currentFlightId := some fid,
          flightData := some { path := path, points := points },
          radarMeta := some { meta with frames := sortFrames meta.frames } }
      (fun st => st.flightData)
      (fun st => by unfold drawFlightPath; dsimp only; repeat' split; all_goals first | rfl | (split_ifs <;> rfl))
      (fun st => rfl)
  · exact loadTry_proj
      { resetMap s with
          currentFlightId := some fid,
          flightData := some { path := path, points := points },
          radarMeta := some { meta with frames := sortFrames meta.frames } }
      (fun st => st.radarMeta)
      (fun st => by unfold drawFlightPath; dsimp only; repeat' split; all_goals first | rfl | (split_ifs <;> rfl))
      (fun st => rfl)

/-- C6: with a session of track length `n` loaded and the current position
`p` in range, one playback tick stores position `p + 1` when `p + 1 < n`, and
wraps the position to `0` when `p + 1 ≥ n` (looping playback). -/
theorem tick_advances_and_wraps (s : AppState) (fd : FlightData)
    (hfd : s.flightData = some fd) (_h0 : 0 ≤ s.currentIndex)
    (_hlt : s.currentIndex < (fd.points.length : Int)) :
    (tickStep s).1.currentIndex =
      if s.currentIndex + 1 < (fd.points.length : Int) then s.currentIndex + 1 else 0 := by
  unfold tickStep
  rw [hfd]
  dsimp only
  rw [(updateFrame_fixed_fields s _).2.2.2.2.2.2]
  by_cases hc : s.currentIndex + 1 < (fd.points.length : Int)
  · rw [if_neg (not_le.mpr hc), if_pos hc]
  · rw [if_pos (not_lt.mp hc), if_neg hc]

/-- C7: pausing is idempotent — a second `pauseAnimation` leaves the state
exactly as after the first, and pausing retains the stored position — and
`resetMap` on an already-Stopped controller is a no-op. -/
theorem pause_idempotent_reset_noop :
    (∀ s : AppState, pauseAnimation (pauseAnimation s) = pauseAnimation s) ∧
    (∀ s : AppState, (pauseAnimation s).currentIndex = s.currentIndex) ∧
    (∀ s : AppState, IsStopped s → resetMap s = s) :=
  ⟨pause_pause, pause_currentIndex, reset_noop⟩

/-- C8: at most one tick timer is ever active: after any sequence of
load/deselect/play-pause/seek/tick events starting from the initial state,
at most one interval registration exists. -/
theorem at_most_one_active_timer (ops : List UserOp) :
    ((ops.foldl stepOp initState).activeTimers).length ≤ 1 := by
  have h := timerInv_foldl ops initState timerInv_init
  cases hb : (ops.foldl stepOp initState).isPlaying with
  | false =>
    rw [h.2 hb]
    simp
  | true =>
    obtain ⟨id, _, hat⟩ := h.1 hb
    rw [hat]
    simp

/-- C9: session load sorts the radar frame sequence ascending by timestamp
with a stable sort: the stored metadata holds exactly the sorted sequence,
which is a permutation of the input, non-decreasing in timestamp, and frames
with equal timestamps keep their original relative order. -/
theorem load_sorts_frames_stably (s : AppState) (fid : String) (path : Option String)
    (points : List TrackPoint) (meta : RadarMeta) :
    (loadFlight s fid path points meta).1.radarMeta =
      some { meta with frames := sortFrames meta.frames } ∧
    SortedByTime (sortFrames meta.frames) ∧
    List.Perm (sortFrames meta.frames) meta.frames ∧
    ∀ ts : Int, (sortFrames meta.frames).filter (fun f => decide (f.time = ts)) =
      meta.frames.filter (fun f => decide (f.time = ts)) :=
  ⟨loadTry_proj
      { resetMap s with
          currentFlightId := some fid,
          flightData := some { path := path, points := points },
          radarMeta := some { meta with frames := sortFrames meta.frames } }
      (fun st => st.radarMeta)
      (fun st => by unfold drawFlightPath; dsimp only; repeat' split; all_goals first | rfl | (split_ifs <;> rfl))
      (fun st => rfl),
    sortFrames_sorted meta.frames, sortFrames_perm meta.frames,
    fun ts => sortFrames_filter_time meta.frames ts⟩

/-- C10: calling `updateFrame` with an index at which no track point exists
(negative or at least the track length) still overwrites the stored current
position with that index, and then returns with no error and every other part
of the state — displayed radar frame, marker, slider value, time label —
unchanged. -/
theorem updateFrame_out_of_range (s : AppState) (fd : FlightData) (i : Int)
    (hfd : s.flightData = some fd)
    (hout : i < 0 ∨ (fd.points.length : Int) ≤ i) :
    updateFrame s i = ({ s with currentIndex := i }, none) := by
  have hnone : getPoint fd.points i = none := by
    unfold getPoint
    rcases hout with h | h
    · rw [if_neg (not_le.mpr h)]
    · have h0i : (0 : Int) ≤ i := le_trans (Int.ofNat_nonneg _) h
      rw [if_pos h0i]
      apply List.getElem?_eq_none
      omega
  unfold updateFrame
  dsimp only
  rw [hfd]
  dsimp only
  rw [hnone]

/-- Witness for C1 at the concrete sorted list `exA` and query time 10. -/
theorem resolver_selects_greatest_le_witness :
    SortedByTime exA ∧ exA ≠ [] ∧
    ((∃ r, resolveFrame exA 10 = some r ∧ r ∈ exA ∧
      ((∀ f ∈ exA, (10 : Int) < f.time) → exA.head? = some r) ∧
      ((∃ f ∈ exA, f.time ≤ 10) →
        r.time ≤ 10 ∧ ∀ f ∈ exA, f.time ≤ 10 → f.time ≤ r.time)) ∧
    (backSearch (exA.map RadarFrame.time) 10 < exA.length ∧
      ((∀ f ∈ exA, (10 : Int) < f.time) → backSearch (exA.map RadarFrame.time) 10 = 0) ∧
      ((∃ f ∈ exA, f.time ≤ 10) →
        (exA.map RadarFrame.time).getD (backSearch (exA.map RadarFrame.time) 10) 0 ≤ 10 ∧
        ∀ f ∈ exA, f.time ≤ 10 →
          f.time ≤ (exA.map RadarFrame.time).getD
            (backSearch (exA.map RadarFrame.time) 10) 0))) :=
  ⟨by decide, by decide, resolver_selects_greatest_le exA 10 (by decide) (by decide)⟩

/-- Witness for C2 at the concrete sorted list `exA` and query times 10, 20. -/
theorem resolver_monotone_witness :
    SortedByTime exA ∧ exA ≠ [] ∧ (10 : Int) ≤ 20 ∧
    (∃ r1 r2, resolveFrame exA 10 = some r1 ∧ resolveFrame exA 20 = some r2 ∧
      r1.time ≤ r2.time) :=
  ⟨by decide, by decide, by decide,
    resolver_monotone exA 10 20 (by decide) (by decide) (by decide)⟩

/-- C3 counterexample: `cexC3` is sorted, has two frames with timestamp 1,
and the query time 2 is at least 1; yet the resolver does not return the last
frame with timestamp 1 — it returns the later frame with timestamp 2. -/
theorem resolver_tie_break_counterexample :
    SortedByTime cexC3 ∧
    2 ≤ (cexC3.filter (fun f => decide (f.time = 1))).length ∧
    (1 : Int) ≤ 2 ∧
    resolveFrame cexC3 2 ≠ (cexC3.filter (fun f => decide (f.time = 1))).getLast? ∧
    resolveFrame cexC3 2 = some { time := 2, file := "c.png" } := by
  refine ⟨?_, ?_, ?_, ?_, ?_⟩ <;> decide

/-- Witness for C3 (amended) at the list `exC3`, query time 2, timestamp 1. -/
theorem resolver_tie_break_last_witness :
    SortedByTime exC3 ∧
    2 ≤ (exC3.filter (fun f => decide (f.time = 1))).length ∧
    (1 : Int) ≤ 2 ∧
    (∀ f ∈ exC3, f.time ≤ 2 → f.time ≤ 1) ∧
    resolveFrame exC3 2 = (exC3.filter (fun f => decide (f.time = 1))).getLast? :=
  ⟨by decide, by decide, by decide, by decide,
    resolver_tie_break_last exC3 2 1 (by decide) (by decide) (by decide) (by decide)⟩

/-- C4 counterexample: with a loaded session of track length 2, seeking to
index 5 stores position 5 — outside [0, 1]; the claimed clamping to
[0, length-1] does not happen. -/
theorem seek_not_clamped_counterexample :
    loadedState.flightData = some fdAB ∧ fdAB.points.length = 2 ∧
    (onSliderInput loadedState 5).1.currentIndex = 5 ∧
    ¬ (onSliderInput loadedState 5).1.currentIndex ≤ 1 := by
  refine ⟨?_, ?_, ?_, ?_⟩ <;> decide

/-- Witness for C4 (amended) at the loaded sample state with seek target 1. -/
theorem seek_pauses_sets_position_witness :
    (onSliderInput loadedState 1).1.isPlaying = false ∧
    (onSliderInput loadedState 1).1.currentIndex = 1 ∧
    (onSliderInput loadedState 1).2 = none :=
  seek_pauses_sets_position loadedState fdAB metaAB 1 rfl rfl (by decide) (by decide)
    (by decide)

/-- C5 counterexample: loading with an empty track from the initial state
does signal an error, but the flight data assigned inside the `try` block is
retained afterwards — the state is not the fully reset Stopped state. -/
theorem load_empty_retains_data_counterexample :
    (loadFlight initState "f1" none [] metaAB).2.isSome = true ∧
    (loadFlight initState "f1" none [] metaAB).1.flightData ≠ none := by
  refine ⟨?_, ?_⟩ <;> decide

/-- Witness for C5 (amended): loading an empty track on the initial state. -/
theorem load_empty_series_fails_witness :
    (([] : List TrackPoint) = [] ∨ metaAB.frames = []) ∧ TimerInv initState ∧
    ((loadFlight initState "f1" none [] metaAB).2.isSome = true ∧
     (loadFlight initState "f1" none [] metaAB).1.isPlaying = false ∧
     (loadFlight initState "f1" none [] metaAB).1.activeTimers = [] ∧
     (loadFlight initState "f1" none [] metaAB).1.currentIndex = 0 ∧
     (loadFlight initState "f1" none [] metaAB).1.controlsHidden = true ∧
     (loadFlight initState "f1" none [] metaAB).1.sliderDisabled = true ∧
     (loadFlight initState "f1" none [] metaAB).1.flightData =
       some { path := none, points := [] } ∧
     (loadFlight initState "f1" none [] metaAB).1.radarMeta =
       some { metaAB with frames := sortFrames metaAB.frames }) :=
  ⟨Or.inl rfl, timerInv_init,
    load_empty_series_fails initState "f1" none [] metaAB (Or.inl rfl) timerInv_init⟩

/-- Witness for C6 at the loaded sample state (position 0, track length 2). -/
theorem tick_advances_and_wraps_witness :
    loadedState.flightData = some fdAB ∧ (0 : Int) ≤ loadedState.currentIndex ∧
    loadedState.currentIndex < (fdAB.points.length : Int) ∧
    (tickStep loadedState).1.currentIndex =
      if loadedState.currentIndex + 1 < (fdAB.points.length : Int) then
        loadedState.currentIndex + 1
      else 0 :=
  ⟨rfl, by decide, by decide,
    tick_advances_and_wraps loadedState fdAB rfl (by decide) (by decide)⟩

/-- Witness for C7: double pause at the loaded sample state, and reset at the
initial (Stopped) state. -/
theorem pause_idempotent_reset_noop_witness :
    pauseAnimation (pauseAnimation loadedState) = pauseAnimation loadedState ∧
    (pauseAnimation loadedState).currentIndex = loadedState.currentIndex ∧
    IsStopped initState ∧ resetMap initState = initState :=
  ⟨pause_idempotent_reset_noop.1 loadedState,
    pause_idempotent_reset_noop.2.1 loadedState,
    ⟨rfl, rfl, rfl, rfl, rfl, rfl, rfl, rfl, rfl⟩,
    pause_idempotent_reset_noop.2.2 initState
      ⟨rfl, rfl, rfl, rfl, rfl, rfl, rfl, rfl, rfl⟩⟩

/-- Witness for C10: an out-of-range index (-3) on the loaded sample state. -/
theorem updateFrame_out_of_range_witness :
    loadedState.flightData = some fdAB ∧
    ((-3 : Int) < 0 ∨ (fdAB.points.length : Int) ≤ -3) ∧
    updateFrame loadedState (-3) = ({ loadedState with currentIndex := -3 }, none) :=
  ⟨rfl, Or.inl (by decide),
    updateFrame_out_of_range loadedState fdAB (-3) rfl (Or.inl (by decide))⟩

end CloudSeedingViewer
